import Mathlib

/-!
Verification of the Createshop social-network application.

The development shallowly embeds the parts of the repository that the
properties below talk about:
* the Zod field validators of src/lib/validation.ts (password, email,
  verification code), modelled as issue-list producers so that acceptance
  and the order of reported messages are both visible;
* the SQL schema and row-level-security policies of the initial migration
  (tables profiles, posts, friendships; the posts SELECT policy, the
  friendships INSERT and UPDATE policies; the handle_new_user trigger);
* the zustand auth store (signUp) and the Home feed query;
* the rate-limiting state of the Auth form component (attempts,
  lockoutUntil, the submit handler and the reset effect).

Machine strings are modelled as List Char, uuid values and timestamps as
Nat (timestamps in milliseconds, matching Date.now()).
-/

namespace Createshop

/-! ## Field validation (src/lib/validation.ts) -/

/-- ASCII character class A-Z, as matched by the Zod regex checks. -/
def isAsciiUpper (c : Char) : Bool := decide ('A' ≤ c ∧ c ≤ 'Z')

/-- ASCII character class a-z. -/
def isAsciiLower (c : Char) : Bool := decide ('a' ≤ c ∧ c ≤ 'z')

/-- ASCII character class 0-9. -/
def isAsciiDigit (c : Char) : Bool := decide ('0' ≤ c ∧ c ≤ '9')

/-- ASCII alphanumeric characters: the class A-Za-z0-9. -/
def isAsciiAlphaNum (c : Char) : Bool := isAsciiUpper c || isAsciiLower c || isAsciiDigit c

/-- One Zod check in a chain: it contributes no issue when `ok` holds and
its message otherwise.  Zod collects the issues of every failed check of a
string schema, in chain order; the form code surfaces the first one. -/
def zodCheck (ok : Bool) (msg : String) : List String := if ok then [] else [msg]

/-- The issue list of `passwordSchema`: min length 8, then one regex check
per required character class, in the order the source chains them. -/
def passwordIssues (s : List Char) : List String :=
  zodCheck (decide (8 ≤ s.length)) "Password must be at least 8 characters" ++
  zodCheck (s.any isAsciiUpper) "Password must contain at least one uppercase letter" ++
  zodCheck (s.any isAsciiLower) "Password must contain at least one lowercase letter" ++
  zodCheck (s.any isAsciiDigit) "Password must contain at least one number" ++
  zodCheck (s.any fun c => !isAsciiAlphaNum c)
    "Password must contain at least one special character"

/-- `passwordSchema.safeParse` succeeds exactly when no check produced an issue. -/
def passwordAccepts (s : List Char) : Bool := (passwordIssues s).isEmpty

/-- Characters allowed in the body of the local part of an email by the Zod
email regex: ASCII alphanumerics, underscore, apostrophe (code 39), plus,
hyphen and dot, case-insensitively. -/
def isEmailLocalChar (c : Char) : Bool :=
  isAsciiAlphaNum c || c == '_' || c == Char.ofNat 39 || c == '+' || c == '-' || c == '.'

/-- Characters allowed as the final character of the local part: as above
but without the dot and the apostrophe. -/
def isEmailLocalLastChar (c : Char) : Bool :=
  isAsciiAlphaNum c || c == '_' || c == '+' || c == '-'

/-- The local part is nonempty, its last character is from the restricted
class, and every earlier character is from the wider class. -/
def emailLocalOk (loc : List Char) : Bool :=
  loc.dropLast.all isEmailLocalChar &&
  (match loc.getLast? with
   | some c => isEmailLocalLastChar c
   | none => false)

/-- A domain label: one ASCII alphanumeric followed by alphanumerics or
hyphens. -/
def emailLabelOk (lab : List Char) : Bool :=
  match lab with
  | [] => false
  | c :: rest => isAsciiAlphaNum c && rest.all (fun d => isAsciiAlphaNum d || d == '-')

/-- The final domain component: at least two ASCII letters. -/
def emailTldOk (tld : List Char) : Bool :=
  decide (2 ≤ tld.length) && tld.all (fun c => isAsciiUpper c || isAsciiLower c)

/-- The domain: one or more dot-terminated labels followed by a final
component of at least two letters, i.e. splitting on dots yields at least
two parts, all but the last being labels and the last a letters-only part. -/
def emailDomainOk (dom : List Char) : Bool :=
  let parts := dom.splitOn '.'
  decide (2 ≤ parts.length) &&
  parts.dropLast.all emailLabelOk &&
  (match parts.getLast? with
   | some tld => emailTldOk tld
   | none => false)

/-- Whether two consecutive dots occur anywhere in the string. -/
def hasDoubleDot : List Char → Bool
  | '.' :: '.' :: _ => true
  | _ :: rest => hasDoubleDot rest
  | [] => false

/-- The default Zod string email validator called by `emailSchema`.  The
underlying regex demands: the string does not start with a dot and holds no
two consecutive dots; then a local part over alphanumerics, underscore,
apostrophe, plus, hyphen and dot whose last character is neither a dot nor
an apostrophe; an at sign; and a domain of one or more dot-terminated
alphanumeric-with-hyphens labels ending in a final part of at least two
letters.  Since the at sign may occur in neither the local part nor the
domain, a matching string holds exactly one at sign, so splitting on it is
faithful to the regex. -/
def zodEmailCheck (s : List Char) : Bool :=
  match s.splitOn '@' with
  | [loc, dom] =>
      (match s.head? with
       | some c => !(c == '.')
       | none => true) &&
      !hasDoubleDot s &&
      emailLocalOk loc && emailDomainOk dom
  | _ => false

/-- The issue list of `emailSchema`: the email format check, then min
length 5, then max length 64, in the order the source chains them. -/
def emailIssues (s : List Char) : List String :=
  zodCheck (zodEmailCheck s) "Please enter a valid email address" ++
  zodCheck (decide (5 ≤ s.length)) "Email must be at least 5 characters" ++
  zodCheck (decide (s.length ≤ 64)) "Email must not exceed 64 characters"

/-- `emailSchema.safeParse` succeeds exactly when no check produced an issue. -/
def emailAccepts (s : List Char) : Bool := (emailIssues s).isEmpty

/-- The issue list of `verificationCodeSchema`: exact length 6, then the
digits-only regex (one or more decimal digits spanning the whole string). -/
def verificationCodeIssues (s : List Char) : List String :=
  zodCheck (decide (s.length = 6)) "Verification code must be 6 digits" ++
  zodCheck (!s.isEmpty && s.all isAsciiDigit) "Verification code must contain only numbers"

/-- `verificationCodeSchema.safeParse` succeeds exactly when no check
produced an issue. -/
def verificationCodeAccepts (s : List Char) : Bool := (verificationCodeIssues s).isEmpty

/-! ### Helper lemmas about check chains -/

theorem zodCheck_append_eq_nil (b : Bool) (msg : String) (l : List String) :
    zodCheck b msg ++ l = [] ↔ b = true ∧ l = [] := by
  cases b <;> simp [zodCheck]

theorem zodCheck_eq_nil (b : Bool) (msg : String) :
    zodCheck b msg = [] ↔ b = true := by
  cases b <;> simp [zodCheck]

/-! ## Claim theorems for the validators -/

/-- C3: the password validator accepts a string iff it has length at least
8 and holds at least one uppercase letter, one lowercase letter, one digit
and one non-alphanumeric character; "Abc123!@" is accepted and "abc12345"
is rejected. -/
theorem password_schema_spec :
    (∀ s : List Char,
      passwordAccepts s = true ↔
        (8 ≤ s.length ∧ (∃ c ∈ s, isAsciiUpper c = true) ∧
         (∃ c ∈ s, isAsciiLower c = true) ∧ (∃ c ∈ s, isAsciiDigit c = true) ∧
         (∃ c ∈ s, isAsciiAlphaNum c = false))) ∧
    passwordAccepts "Abc123!@".toList = true ∧
    passwordAccepts "abc12345".toList = false := by
  refine ⟨fun s => ?_, by decide, by decide⟩
  simp [passwordAccepts, passwordIssues, List.isEmpty_iff, zodCheck_append_eq_nil,
    zodCheck_eq_nil, List.any_eq_true]

/-- C8: the verification-code validator accepts a string iff it is exactly
6 characters long and every character is a decimal digit; "123456" is
accepted while "12a456" and "12345" are rejected. -/
theorem verification_code_schema_spec :
    (∀ s : List Char,
      verificationCodeAccepts s = true ↔ (s.length = 6 ∧ ∀ c ∈ s, isAsciiDigit c = true)) ∧
    verificationCodeAccepts "123456".toList = true ∧
    verificationCodeAccepts "12a456".toList = false ∧
    verificationCodeAccepts "12345".toList = false := by
  refine ⟨fun s => ?_, by decide, by decide, by decide⟩
  simp only [verificationCodeAccepts, verificationCodeIssues, List.isEmpty_iff,
    zodCheck_append_eq_nil, zodCheck_eq_nil, Bool.and_eq_true, Bool.not_eq_true',
    List.all_eq_true, decide_eq_true_eq]
  constructor
  · rintro ⟨h6, _, hall⟩
    exact ⟨h6, hall⟩
  · rintro ⟨h6, hall⟩
    refine ⟨h6, ?_, hall⟩
    cases s with
    | nil => simp at h6
    | cons a t => simp

/-- C7: the email validator accepts a string iff it passes the Zod email
format check and its length lies in the interval from 5 to 64; "a@b.co" is
accepted, and "x@y" is rejected with the format message reported first. -/
theorem email_schema_spec :
    (∀ s : List Char,
      emailAccepts s = true ↔ (zodEmailCheck s = true ∧ 5 ≤ s.length ∧ s.length ≤ 64)) ∧
    emailAccepts "a@b.co".toList = true ∧
    emailAccepts "x@y".toList = false ∧
    (emailIssues "x@y".toList).head? = some "Please enter a valid email address" := by
  refine ⟨fun s => ?_, by decide, by decide, by decide⟩
  simp [emailAccepts, emailIssues, List.isEmpty_iff, zodCheck_append_eq_nil, zodCheck_eq_nil]

/-! ## Schema and row-level-security policies (initial migration) -/

/-- The CHECK constraint on posts.privacy admits exactly these values
(the source value private is spelled private_ here, private being a Lean
keyword). -/
inductive Privacy
  | public
  | friends
  | private_
deriving DecidableEq

/-- The CHECK constraint on friendships.status admits exactly these values. -/
inductive FriendStatus
  | pending
  | accepted
  | rejected
deriving DecidableEq

/-- A row of the friendships table (uuid values as Nat). -/
structure FriendshipRow where
  id : Nat
  sender_id : Nat
  receiver_id : Nat
  status : FriendStatus
deriving DecidableEq

/-- A row of the posts table. -/
structure PostRow where
  id : Nat
  user_id : Nat
  content : String
  image_url : Option String
  privacy : Privacy
deriving DecidableEq

/-- The posts SELECT policy, evaluated for requester `uid` against row `p`
with the friendships table holding `friendships`: privacy is public, or the
requester owns the row, or privacy is friends and some friendships row
links requester and owner in either direction with status accepted. -/
def postsSelectPolicy (uid : Nat) (p : PostRow) (friendships : List FriendshipRow) : Bool :=
  decide (p.privacy = Privacy.public) || decide (p.user_id = uid) ||
  (decide (p.privacy = Privacy.friends) &&
    friendships.any fun f =>
      ((decide (f.sender_id = uid) && decide (f.receiver_id = p.user_id)) ||
       (decide (f.receiver_id = uid) && decide (f.sender_id = p.user_id))) &&
      decide (f.status = FriendStatus.accepted))

/-- The friendships INSERT policy: WITH CHECK auth.uid() = sender_id. -/
def friendshipsInsertPolicy (uid : Nat) (row : FriendshipRow) : Bool :=
  decide (uid = row.sender_id)

/-- The USING clause of the friendships UPDATE policy:
auth.uid() IN (sender_id, receiver_id). -/
def friendshipsUpdateUsing (uid : Nat) (row : FriendshipRow) : Bool :=
  decide (uid = row.sender_id) || decide (uid = row.receiver_id)

/-- Whether the friendships UPDATE policy lets requester `uid` replace
`oldRow` with `newRow`: Postgres applies the USING clause to the existing
row and, since the policy declares no WITH CHECK clause, the same clause to
the updated row.  No part of the policy compares old and new field values. -/
def friendshipsUpdateAllowed (uid : Nat) (oldRow newRow : FriendshipRow) : Bool :=
  friendshipsUpdateUsing uid oldRow && friendshipsUpdateUsing uid newRow

/-! ## Registration provisioning (handle_new_user trigger) -/

/-- A row of auth.users as the trigger sees it: id, email and the raw
user metadata JSON object (modelled as a key-value list). -/
structure AuthUser where
  id : Nat
  email : String
  raw_user_meta_data : List (String × String)
deriving DecidableEq

/-- A row of the profiles table, restricted to the columns the trigger
inserts. -/
structure ProfileRow where
  id : Nat
  username : String
  full_name : Option String
deriving DecidableEq

/-- The JSON text-extraction operator applied to the metadata object:
the value at the key, when present. -/
def jsonText (m : List (String × String)) (k : String) : Option String :=
  (m.find? fun kv => kv.1 == k).map fun kv => kv.2

/-- handle_new_user: INSERT INTO profiles (id, username, full_name)
VALUES (new.id, new.email, new.raw_user_meta_data ->> full_name). -/
def handle_new_user (u : AuthUser) (profiles : List ProfileRow) : List ProfileRow :=
  ⟨u.id, u.email, jsonText u.raw_user_meta_data "full_name"⟩ :: profiles

/-- The two tables the trigger connects. -/
structure Database where
  users : List AuthUser
  profiles : List ProfileRow
deriving DecidableEq

/-- Inserting a row into auth.users fires the AFTER INSERT trigger
on_auth_user_created within the same statement, so identity creation and
profile provisioning form one step. -/
def createIdentity (db : Database) (u : AuthUser) : Database :=
  { users := u :: db.users, profiles := handle_new_user u db.profiles }

/-! ## Auth store (useAuthStore) and feed query (Home.fetchPosts) -/

/-- The fields of the zustand auth store state (the user as an optional
identity id). -/
structure AuthStoreState where
  user : Option Nat
  loading : Bool
  verificationSent : Bool
deriving DecidableEq

/-- useAuthStore.signUp: it calls supabase.auth.signUp and, when that
errors, throws with the store untouched; on success its only store write is
set verificationSent to true. -/
def signUp (s : AuthStoreState) (signUpSucceeds : Bool) : AuthStoreState :=
  if signUpSucceeds then { s with verificationSent := true } else s

/-- The joined profile columns selected by the feed query. -/
structure FeedProfileInfo where
  username : String
  avatar_url : Option String
deriving DecidableEq

/-- A row of the feed query result: the selected post columns and the
joined profile info (created_at as a millisecond timestamp). -/
structure FeedPost where
  id : Nat
  content : String
  image_url : Option String
  created_at : Nat
  profiles : FeedProfileInfo
deriving DecidableEq

/-- The comparator requested by order on created_at with ascending false:
later timestamps first. -/
def createdAtDesc (a b : FeedPost) : Bool := decide (b.created_at ≤ a.created_at)

/-- Home.fetchPosts: the store evaluates the query and returns the visible
rows sorted by created_at descending. -/
def fetchPosts (rows : List FeedPost) : List FeedPost := rows.mergeSort createdAtDesc

/-! ## Claim theorems for policies, provisioning, store and feed -/

/-- C1: a posts row is visible to a requester exactly when privacy is
public, or the requester owns it, or privacy is friends and an accepted
friendships row links requester and owner in either direction; in the
concrete two-user scenario, turning the linking accepted friendship into a
rejected one makes the friends-post invisible to the non-owner. -/
theorem posts_select_policy_spec :
    (∀ (uid : Nat) (p : PostRow) (fs : List FriendshipRow),
      postsSelectPolicy uid p fs = true ↔
        (p.privacy = Privacy.public ∨ p.user_id = uid ∨
         (p.privacy = Privacy.friends ∧ ∃ f ∈ fs, f.status = FriendStatus.accepted ∧
           ((f.sender_id = uid ∧ f.receiver_id = p.user_id) ∨
            (f.receiver_id = uid ∧ f.sender_id = p.user_id))))) ∧
    postsSelectPolicy 2 ⟨20, 1, "hi", none, Privacy.friends⟩
      [⟨10, 1, 2, FriendStatus.accepted⟩] = true ∧
    postsSelectPolicy 2 ⟨20, 1, "hi", none, Privacy.friends⟩
      [⟨10, 1, 2, FriendStatus.rejected⟩] = false := by
  refine ⟨fun uid p fs => ?_, by decide, by decide⟩
  simp only [postsSelectPolicy, Bool.or_eq_true, Bool.and_eq_true, decide_eq_true_eq,
    List.any_eq_true]
  constructor
  · rintro ((h | h) | ⟨hf, f, hmem, hdir, hacc⟩)
    · exact Or.inl h
    · exact Or.inr (Or.inl h)
    · exact Or.inr (Or.inr ⟨hf, f, hmem, hacc, hdir⟩)
  · rintro (h | h | ⟨hf, f, hmem, hacc, hdir⟩)
    · exact Or.inl (Or.inl h)
    · exact Or.inl (Or.inr h)
    · exact Or.inr ⟨hf, f, hmem, hdir, hacc⟩

/-- C5: the friendships INSERT policy admits an insert exactly when the
requester equals the inserted sender_id, and rejects it exactly when they
differ. -/
theorem friendships_insert_policy_spec :
    ∀ (uid : Nat) (row : FriendshipRow),
      (friendshipsInsertPolicy uid row = true ↔ uid = row.sender_id) ∧
      (friendshipsInsertPolicy uid row = false ↔ uid ≠ row.sender_id) := by
  intro uid row
  constructor
  · simp [friendshipsInsertPolicy]
  · simp [friendshipsInsertPolicy]

/-- C6 counterexample: requester 1 is the sender of the existing row
(7, 1, 2, pending) and of the updated row (7, 1, 3, pending), so the
UPDATE policy permits the update, yet receiver_id changed from 2 to 3. -/
theorem friendships_update_policy_counterexample :
    ¬ (∀ (uid : Nat) (oldRow newRow : FriendshipRow),
        friendshipsUpdateAllowed uid oldRow newRow = true →
          newRow.id = oldRow.id ∧ newRow.sender_id = oldRow.sender_id ∧
          newRow.receiver_id = oldRow.receiver_id) := by
  intro h
  have := h 1 ⟨7, 1, 2, FriendStatus.pending⟩ ⟨7, 1, 3, FriendStatus.pending⟩ (by decide)
  exact absurd this.2.2 (by decide)

/-- C6 amended: the friendships UPDATE policy constrains only who updates,
not which fields change: an update is permitted exactly when the requester
is sender or receiver of the existing row and sender or receiver of the
updated row. -/
theorem friendships_update_policy_amended :
    ∀ (uid : Nat) (oldRow newRow : FriendshipRow),
      friendshipsUpdateAllowed uid oldRow newRow = true ↔
        ((uid = oldRow.sender_id ∨ uid = oldRow.receiver_id) ∧
         (uid = newRow.sender_id ∨ uid = newRow.receiver_id)) := by
  intro uid o n
  simp [friendshipsUpdateAllowed, friendshipsUpdateUsing]

/-- C4: creating an identity provisions, in the same step, a profile row
whose id is the identity id, whose username is the identity email, and
whose full_name is the full_name entry of the supplied metadata. -/
theorem handle_new_user_provisions_profile :
    ∀ (db : Database) (u : AuthUser),
      (createIdentity db u).profiles =
        ⟨u.id, u.email, jsonText u.raw_user_meta_data "full_name"⟩ :: db.profiles ∧
      ∃ p ∈ (createIdentity db u).profiles,
        p.id = u.id ∧ p.username = u.email ∧
        p.full_name = jsonText u.raw_user_meta_data "full_name" := by
  intro db u
  exact ⟨rfl, _, List.mem_cons_self _ _, rfl, rfl, rfl⟩

/-- C9: a successful signUp leaves user (and loading) unchanged and sets
only verificationSent; in particular a signed-out client stays signed out. -/
theorem signup_does_not_sign_in :
    ∀ s : AuthStoreState,
      (signUp s true).user = s.user ∧
      (signUp s true).loading = s.loading ∧
      (signUp s true).verificationSent = true ∧
      (signUp ⟨none, false, false⟩ true).user = none := by
  intro s
  exact ⟨rfl, rfl, rfl, rfl⟩

/-- C10: every fetched feed is sorted newest-first: each adjacent pair of
result rows has non-increasing created_at. -/
theorem fetch_posts_sorted_newest_first :
    ∀ rows : List FeedPost,
      List.Chain' (fun p q => q.created_at ≤ p.created_at) (fetchPosts rows) := by
  intro rows
  have htrans : ∀ (a b c : FeedPost),
      createdAtDesc a b = true → createdAtDesc b c = true → createdAtDesc a c = true := by
    intro a b c hab hbc
    simp only [createdAtDesc, decide_eq_true_eq] at hab hbc ⊢
    exact le_trans hbc hab
  have htotal : ∀ (a b : FeedPost), (createdAtDesc a b || createdAtDesc b a) = true := by
    intro a b
    simp only [createdAtDesc, Bool.or_eq_true, decide_eq_true_eq]
    exact le_total b.created_at a.created_at
  have h := List.sorted_mergeSort htrans htotal rows
  exact (h.imp fun hab => by simpa [createdAtDesc] using hab).chain'

/-! ## Auth form rate limiting (attempts / lockoutUntil) -/

/-- How one submission of the Auth form turns out once it is past the
lockout guard: the awaited work succeeds, or throws with a message. -/
inductive SubmitOutcome
  | success
  | failure (msg : String)
deriving DecidableEq

/-- What handleSubmit reports back: the lockout rejection with its
countdown in seconds, a normal completion, or an error message. -/
inductive SubmitResult
  | lockedOut (secondsLeft : Nat)
  | ok
  | errorMsg (msg : String)
deriving DecidableEq

/-- The rate-limiting state of one rendered Auth form: the attempts
counter and the optional lockout timestamp (milliseconds). -/
structure AuthFormState where
  attempts : Nat
  lockoutUntil : Option Nat
deriving DecidableEq

/-- The try/catch part of handleSubmit.  On success the counter is set to
0 (lockoutUntil is not written).  In the catch branch the counter is
incremented with a functional update, while the lockout test reads the
render-time value of attempts: when that stale value is at least 4 a
lockout of now plus 300000 milliseconds is installed with the fixed
message, otherwise the thrown message is surfaced. -/
def handleSubmitBody (s : AuthFormState) (now : Nat) (outcome : SubmitOutcome) :
    AuthFormState × SubmitResult :=
  match outcome with
  | SubmitOutcome.success => ({ s with attempts := 0 }, SubmitResult.ok)
  | SubmitOutcome.failure msg =>
    if 4 ≤ s.attempts then
      ({ attempts := s.attempts + 1, lockoutUntil := some (now + 300000) },
       SubmitResult.errorMsg "Too many attempts. Please try again in 5 minutes.")
    else
      ({ s with attempts := s.attempts + 1 }, SubmitResult.errorMsg msg)

/-- handleSubmit: when a lockout timestamp is set and the current time is
still before it, the submission is rejected with the rounded-up countdown
in seconds and nothing else runs; otherwise the body executes. -/
def handleSubmit (s : AuthFormState) (now : Nat) (outcome : SubmitOutcome) :
    AuthFormState × SubmitResult :=
  match s.lockoutUntil with
  | some t =>
    if now < t then (s, SubmitResult.lockedOut ((t - now + 999) / 1000))
    else handleSubmitBody s now outcome
  | none => handleSubmitBody s now outcome

/-- The body of the reset effect: when a lockout timestamp is set and the
current time is past it, clear the lockout and reset the counter to 0. -/
def lockoutEffectBody (s : AuthFormState) (now : Nat) : AuthFormState :=
  match s.lockoutUntil with
  | some t => if t < now then { attempts := 0, lockoutUntil := none } else s
  | none => s

/-- One submit interaction of the component.  The reset effect declares
the dependency list holding only lockoutUntil, so it re-runs exactly in the
re-render caused by a handler that changed lockoutUntil, essentially at the
same instant; renders caused by other state writes leave the dependency
unchanged and skip the effect. -/
def submitStep (s : AuthFormState) (now : Nat) (outcome : SubmitOutcome) :
    AuthFormState × SubmitResult :=
  match handleSubmit s now outcome with
  | (t, r) => (if t.lockoutUntil = s.lockoutUntil then t else lockoutEffectBody t now, r)

/-- A sequence of submit interactions, each with its timestamp and outcome. -/
def runSubmits (s : AuthFormState) : List (Nat × SubmitOutcome) → AuthFormState
  | [] => s
  | (now, o) :: rest => runSubmits (submitStep s now o).1 rest

/-- C2: evaluation of the failure-counter machine on the scenario the claim
describes.  Five failed submissions at seconds 0 to 4 leave the counter at
5 with a lockout until millisecond 304000; a submission during the lockout
is rejected with the countdown and changes nothing; but a failed submission
after the timestamp has elapsed still finds the counter at 5 (no reset ever
ran, the effect only fires when the lockout value changes, at which moment
the fresh lockout lies 5 minutes ahead), so that single failure installs a
new 5-minute lockout instead of being evaluated against a reset counter. -/
theorem auth_lockout_counter_not_reset_after_elapse :
    runSubmits ⟨0, none⟩
      [(0, SubmitOutcome.failure "e"), (1000, SubmitOutcome.failure "e"),
       (2000, SubmitOutcome.failure "e"), (3000, SubmitOutcome.failure "e"),
       (4000, SubmitOutcome.failure "e")] = ⟨5, some 304000⟩ ∧
    submitStep ⟨5, some 304000⟩ 150000 (SubmitOutcome.failure "e") =
      (⟨5, some 304000⟩, SubmitResult.lockedOut 154) ∧
    submitStep ⟨5, some 304000⟩ 304001 (SubmitOutcome.failure "e") =
      (⟨6, some 604001⟩,
       SubmitResult.errorMsg "Too many attempts. Please try again in 5 minutes.") := by
  exact ⟨rfl, rfl, rfl⟩

end Createshop
